import Mathlib

/-!
# A9G modem driver (`uart_async_rxtxtasks_main.c`): embedding and properties

The C file drives an A9G GSM/GPS modem over UART 1 with AT commands.  The
embedding below follows the source function by function.

* Bytes are natural numbers; a C string is a run of non-zero bytes closed by a
  `0`.  A string literal is modelled by its bytes.
* Everything the program does to the outside world is recorded, in order, in a
  trace of `Event`s: UART writes, `vTaskDelay` calls, `printf` output and the
  calls of `malloc` and `free`.
* The heap is a list of blocks; a pointer is `none` (the null pointer) or the
  index of a block.  `free` marks the block released.
* `malloc` is decided by the environment: it may return the null pointer, a
  new block, or hand back a released block that is large enough.
* A run that leaves defined C behaviour stops there: the result `undef` keeps
  the reason and the state reached.  Reading through the null pointer or
  through a pointer to a released block is such a stop, as is reading past the
  end of an object or writing past the end of a block.
* `esp_log_level_set` and `ESP_LOGI` only feed the logging facility and are
  not recorded; the value `uart_write_bytes` returns goes nowhere else.
* `portTICK_PERIOD_MS` and the pointer size are not in the source file; they
  are fields of the environment `Env`.
-/

namespace A9G

/-! ## Environment, events, state -/

/-- One externally visible action of the program. -/
inductive Event where
  /-- Call of `uart_write_bytes(UART_NUM_1, data, len)`: the `len` bytes handed over. -/
  | write (data : List Nat)
  /-- Call of `uart_read_bytes(UART_NUM_1, buf, maxLen, ticks)`. -/
  | read (maxLen ticks : Nat)
  /-- Call of `vTaskDelay(ticks)`. -/
  | delay (ticks : Nat)
  /-- Call of `printf`: the bytes put on standard output. -/
  | print (data : List Nat)
  /-- Call of `malloc(size)` and the pointer it returned. -/
  | malloc (p : Option Nat) (size : Nat)
  /-- Call of `free(p)`. -/
  | free (p : Option Nat)
  deriving DecidableEq, Repr

/-- What the allocator decides on a call of `malloc`. -/
inductive Alloc where
  /-- Out of memory: the null pointer. -/
  | null
  /-- A block never handed out before. -/
  | fresh
  /-- The storage of block `h`, if that block is released and large enough;
  otherwise a block never handed out before. -/
  | reuse (h : Nat)
  deriving DecidableEq, Repr

/-- What the source leaves to the platform and the outside world. -/
structure Env where
  /-- Value of `portTICK_PERIOD_MS` (FreeRTOS configuration, not in the source file). -/
  tickMs : Nat
  /-- Value of `sizeof(const char*)` on the target. -/
  ptrBytes : Nat
  /-- Return value of `uart_write_bytes`, given the trace so far and the bytes
  requested. -/
  uartWrite : List Event → List Nat → Int
  /-- Decision of the allocator, given the trace so far and the size asked for. -/
  alloc : List Event → Nat → Alloc
  /-- Byte at offset `i` of block `h` when it is first handed out (uninitialised). -/
  uninit : Nat → Nat → Nat

/-- A heap block. -/
structure Block where
  data : List Nat
  released : Bool
  deriving DecidableEq, Repr

/-- Program state: heap, the global `locData`, and the trace so far. -/
structure State where
  heap : List Block
  /-- Global `uint8_t* locData = 0;` with `none` for the null pointer. -/
  locData : Option Nat
  trace : List Event
  deriving DecidableEq, Repr

/-- State at program start. -/
def State.init : State := { heap := [], locData := none, trace := [] }

/-- The ways a run leaves defined behaviour. -/
inductive Fault where
  /-- Access through the null pointer. -/
  | nullDeref
  /-- Access through a pointer to block `h` after `free`. -/
  | useAfterFree (h : Nat)
  /-- Access through a pointer that refers to no block. -/
  | wild (h : Nat)
  /-- Read past the end of an object. -/
  | overRead
  /-- Write past the end of a heap block. -/
  | overflow
  /-- Call of `free` on a released block. -/
  | doubleFree (h : Nat)
  deriving DecidableEq, Repr

/-- How a run ends: with a value, or at the point where it leaves defined
behaviour.  Both keep the state reached. -/
inductive Result (α : Type) where
  | ok (val : α) (s : State)
  | undef (why : Fault) (s : State)
  deriving DecidableEq, Repr

/-- Reason for which a run left defined behaviour, if it did. -/
def Result.fault {α : Type} : Result α → Option Fault
  | .ok _ _ => none
  | .undef w _ => some w

/-- A procedure: from a state to the way the run ends. -/
def Proc (α : Type) : Type := State → Result α

/-- Sequencing: the second procedure runs only if the first ended normally. -/
def Proc.bind {α β : Type} (m : Proc α) (f : α → Proc β) : Proc β := fun s =>
  match m s with
  | .ok a s1 => f a s1
  | .undef w s1 => .undef w s1

instance : Monad Proc where
  pure a := fun s => .ok a s
  bind := Proc.bind

/-- Source constant `static const int RX_BUF_SIZE = 1024;`. -/
def RX_BUF_SIZE : Nat := 1024

/-- The bytes of an ASCII text. -/
def ascii (s : String) : List Nat := s.toList.map Char.toNat

/-- A C string literal in memory: its characters and the closing `0`. -/
def cstr (s : String) : List Nat := ascii s ++ [0]

/-- Append an event to the trace. -/
def emit (e : Event) : Proc Unit := fun s =>
  .ok () { s with trace := s.trace ++ [e] }

/-- Stop: the run leaves defined behaviour. -/
def stop {α : Type} (w : Fault) : Proc α := fun s => .undef w s

/-! ## C library and driver calls -/

/-- Number of bytes before the first `0`; `none` when the bytes given hold no `0`. -/
def strlen : List Nat → Option Nat
  | [] => none
  | b :: bs => if b = 0 then some 0 else (strlen bs).map (· + 1)

/-- C library `strlen` on the bytes of an object: stops when they hold no `0`. -/
def c_strlen (bytes : List Nat) : Proc Nat :=
  match strlen bytes with
  | some n => pure n
  | none => stop .overRead

/-- Overwrite `dst` from offset `off` with `bs`; `none` when this would run past
the end of `dst`. -/
def store (dst : List Nat) (off : Nat) (bs : List Nat) : Option (List Nat) :=
  if off + bs.length ≤ dst.length then
    some (dst.take off ++ bs ++ dst.drop (off + bs.length))
  else none

/-- Bytes of the buffer `dst` after `strcpy(dst, src)`: the string at `src` is
copied, closing `0` included. -/
def strcpy (dst src : List Nat) : Option (List Nat) := do
  let n ← strlen src
  store dst 0 (src.take (n + 1))

/-- Bytes of the buffer `dst` after `strcat(dst, src)`: the string at `src` is
copied, closing `0` included, over the closing `0` of the string at `dst`. -/
def strcat (dst src : List Nat) : Option (List Nat) := do
  let d ← strlen dst
  let n ← strlen src
  store dst d (src.take (n + 1))

/-- Driver call `uart_write_bytes(UART_NUM_1, data, len)`: hands the first `len`
bytes at `data` to the UART and returns the count the driver reports. -/
def uart_write_bytes (env : Env) (data : List Nat) (len : Nat) : Proc Int := fun s =>
  if len ≤ data.length then
    .ok (env.uartWrite s.trace (data.take len))
      { s with trace := s.trace ++ [.write (data.take len)] }
  else .undef .overRead s

/-- Kernel call `vTaskDelay(ticks)`. -/
def vTaskDelay (ticks : Nat) : Proc Unit := emit (.delay ticks)

/-- A block never handed out before, of `size` uninitialised bytes. -/
def freshBlock (env : Env) (size : Nat) : Proc (Option Nat) := fun s =>
  .ok (some s.heap.length)
    { s with
      heap := s.heap ++ [⟨(List.range size).map (env.uninit s.heap.length), false⟩],
      trace := s.trace ++ [.malloc (some s.heap.length) size] }

/-- C library `malloc(size)`: the null pointer, a new block, or the storage of
a released block that is large enough, as the allocator decides. -/
def malloc (env : Env) (size : Nat) : Proc (Option Nat) := fun s =>
  match env.alloc s.trace size with
  | .null => .ok none { s with trace := s.trace ++ [.malloc none size] }
  | .fresh => freshBlock env size s
  | .reuse h =>
    match s.heap[h]? with
    | some b =>
      if b.released = true ∧ size ≤ b.data.length then
        .ok (some h)
          { s with
            heap := s.heap.set h ⟨b.data.take size, false⟩,
            trace := s.trace ++ [.malloc (some h) size] }
      else freshBlock env size s
    | none => freshBlock env size s

/-- C library `free(p)`: nothing for the null pointer, else the block is marked
released. -/
def free (p : Option Nat) : Proc Unit := fun s =>
  match p with
  | none => .ok () { s with trace := s.trace ++ [.free none] }
  | some h =>
    match s.heap[h]? with
    | some b =>
      if b.released = true then .undef (.doubleFree h) s
      else .ok ()
        { s with
          heap := s.heap.set h { b with released := true },
          trace := s.trace ++ [.free (some h)] }
    | none => .undef (.wild h) s

/-- Read the bytes of the object `p` points to.  The run stops when `p` is
null or the block is released. -/
def load (p : Option Nat) : Proc (List Nat) := fun s =>
  match p with
  | none => .undef .nullDeref s
  | some h =>
    match s.heap[h]? with
    | some b => if b.released = true then .undef (.useAfterFree h) s else .ok b.data s
    | none => .undef (.wild h) s

/-- Replace the bytes of the object `p` points to, under the same conditions
as `load`. -/
def poke (p : Option Nat) (data : List Nat) : Proc Unit := fun s =>
  match p with
  | none => .undef .nullDeref s
  | some h =>
    match s.heap[h]? with
    | some b =>
      if b.released = true then .undef (.useAfterFree h) s
      else .ok () { s with heap := s.heap.set h { b with data := data } }
    | none => .undef (.wild h) s

/-- The value of an updated buffer, or a stop when the update ran past its end. -/
def written (r : Option (List Nat)) : Proc (List Nat) :=
  match r with
  | some buf => pure buf
  | none => stop .overflow

/-- Read the global `locData`. -/
def getLocData : Proc (Option Nat) := fun s => .ok s.locData s

/-- Assign the global `locData`. -/
def setLocData (p : Option Nat) : Proc Unit := fun s => .ok () { s with locData := p }

/-! ## The source, function by function -/

/-- Source function `int sendData(const char* logName, const char* data)`. -/
def sendData (env : Env) (data : List Nat) : Proc Int := do
  let len ← c_strlen data
  uart_write_bytes env data len

/-- Source function `int sendHex(const char* logName, const char* data)`: the length is
`sizeof(data)`, the size of the pointer parameter. -/
def sendHex (env : Env) (data : List Nat) : Proc Int :=
  let len := env.ptrBytes
  uart_write_bytes env data len

/-- Source function `static void gpsSetup()`. -/
def gpsSetup (env : Env) : Proc Unit := do
  let _ ← sendData env (cstr "AT+GPS=1\r\n")

/-- Source function `static void gpsDisable()`. -/
def gpsDisable (env : Env) : Proc Unit := do
  let _ ← sendData env (cstr "AT+GPS=0\r\n")

/-- Source function `static void internetSetup()`. -/
def internetSetup (env : Env) : Proc Unit := do
  let _ ← sendData env (cstr "AT+CGATT=1\r\n")
  vTaskDelay (2000 / env.tickMs)
  let _ ← sendData env (cstr "AT+CGDCONT=1,\"IP\",\"hologram\"\r\n")
  vTaskDelay (2000 / env.tickMs)
  let _ ← sendData env (cstr "AT+CGACT=1,1\r\n")
  vTaskDelay (1000 / env.tickMs)

/-- Source function `static void smsSetup()`. -/
def smsSetup (env : Env) : Proc Unit := do
  let _ ← sendData env (cstr "AT+CMGF=1\r\n")

/-- Source function `static void smsDisable()`. -/
def smsDisable (env : Env) : Proc Unit := do
  let _ ← sendData env (cstr "AT+CMGF=0\r\n")

/-- Source function `static void delMssg()`. -/
def delMssg (env : Env) : Proc Unit := do
  let _ ← sendData env (cstr "AT+CPMS=ME\r\n")
  vTaskDelay (1000 / env.tickMs)
  let _ ← sendData env (cstr "AT+CMGD=1,4\r\n")

/-- Source function `static void rx2task()`: the read loop is commented out in the source, so
the body is `malloc`, the assignment to `locData`, and `free`. -/
def rx2task (env : Env) : Proc Unit := do
  let data ← malloc env (RX_BUF_SIZE + 1)
  setLocData data
  free data

/-- Source function `static void getLocation()`. -/
def getLocation (env : Env) : Proc Unit := do
  gpsSetup env
  vTaskDelay (1000 / env.tickMs)
  let _ ← sendData env (cstr "AT+GPSRD=1\r\n")
  vTaskDelay (3000 / env.tickMs)
  let _ ← sendData env (cstr "AT+GPSRD=0\r\n")
  vTaskDelay (1000 / env.tickMs)
  rx2task env
  let _ ← sendData env (cstr "AT+LOCATION=2\r\n")
  vTaskDelay (1000 / env.tickMs)
  rx2task env
  gpsDisable env

/-- The string literal `googs` of `sendLocation`. -/
def googs : List Nat := cstr "https://www.google.com/maps/search/?api=1&query="

/-- Source function `static void sendLocation()`.  The lines between `printf` and `smsDisable`
are commented out in the source and so are not part of the body. -/
def sendLocation (env : Env) : Proc Unit := do
  smsSetup env
  vTaskDelay (1000 / env.tickMs)
  getLocation env
  vTaskDelay (10000 / env.tickMs)
  -- char* result = (char*) locData;
  let result ← getLocData
  -- char* hyperlink = (char*) malloc(1 + strlen(googs) + strlen(result));
  let g ← c_strlen googs
  let r ← load result
  let n ← c_strlen r
  let hyperlink ← malloc env (1 + g + n)
  -- strcpy(hyperlink, googs);
  let buf ← load hyperlink
  let buf ← written (strcpy buf googs)
  poke hyperlink buf
  -- strcat(hyperlink, result);
  let buf ← load hyperlink
  let r ← load result
  let buf ← written (strcat buf r)
  poke hyperlink buf
  -- printf("%s\n", hyperlink);
  let buf ← load hyperlink
  let n ← c_strlen buf
  emit (.print (buf.take n ++ ascii "\n"))
  smsDisable env
  free hyperlink

/-- Source function `void app_main(void)`: `init()` configures the UART driver, then
`sendLocation()` runs. -/
def app_main (env : Env) : Result Unit := sendLocation env State.init

/-! ## Reading a trace -/

/-- A transport-level step, with waits in milliseconds. -/
inductive Step where
  | send (data : List Nat)
  | wait (ms : Nat)
  | recv (maxLen ms : Nat)
  deriving DecidableEq, Repr

/-- The transport-level steps of a trace for tick period `tickMs`: UART writes,
UART reads and delays, the latter converted from ticks to milliseconds. -/
def steps (tickMs : Nat) : List Event → List Step
  | [] => []
  | .write d :: es => .send d :: steps tickMs es
  | .delay k :: es => .wait (k * tickMs) :: steps tickMs es
  | .read n k :: es => .recv n (k * tickMs) :: steps tickMs es
  | _ :: es => steps tickMs es

/-- The UART writes of a trace, in order. -/
def writes : List Event → List (List Nat)
  | [] => []
  | .write d :: es => d :: writes es
  | _ :: es => writes es

/-- The `printf` outputs of a trace, in order. -/
def printed : List Event → List (List Nat)
  | [] => []
  | .print d :: es => d :: printed es
  | _ :: es => printed es

/-- An ESP32 environment for examples: 10 ms tick, 4-byte pointers, every UART
write accepted whole, an allocator that always hands out a new block, zeroed
fresh memory. -/
def esp32 : Env :=
  { tickMs := 10, ptrBytes := 4,
    uartWrite := fun _ d => d.length,
    alloc := fun _ _ => .fresh,
    uninit := fun _ _ => 0 }

/-- The same environment with an allocator that hands released storage back:
every call asks for the storage of block 0. -/
def esp32Reusing : Env :=
  { esp32 with alloc := fun _ _ => .reuse 0 }

/-- The same environment out of memory: every `malloc` returns the null pointer. -/
def esp32NoMemory : Env :=
  { esp32 with alloc := fun _ _ => .null }

/-! ## Derived descriptions used in the statements -/

/-- The URL text of `googs`, without the closing `0`. -/
def mapsUrl : List Nat := ascii "https://www.google.com/maps/search/?api=1&query="

/-- The events of a run of `getLocation` in which the two calls of `rx2task`
obtained the pointers `p1` and `p2` from `malloc`. -/
def getLocationEvents (env : Env) (p1 p2 : Option Nat) : List Event :=
  [.write (ascii "AT+GPS=1\r\n"), .delay (1000 / env.tickMs),
   .write (ascii "AT+GPSRD=1\r\n"), .delay (3000 / env.tickMs),
   .write (ascii "AT+GPSRD=0\r\n"), .delay (1000 / env.tickMs),
   .malloc p1 (RX_BUF_SIZE + 1), .free p1,
   .write (ascii "AT+LOCATION=2\r\n"), .delay (1000 / env.tickMs),
   .malloc p2 (RX_BUF_SIZE + 1), .free p2,
   .write (ascii "AT+GPS=0\r\n")]

/-- The pointer `p` refers to no live object in state `s`: it is null, or it
points to a released block. -/
def Dangling (s : State) (p : Option Nat) : Prop :=
  p = none ∨ ∃ h b, p = some h ∧ s.heap[h]? = some b ∧ b.released = true

/-! ## Reading a link back (spec side)

The source has no parser for the link.  The two functions below follow the
wording of the round-trip property: remove the fixed template up to and
including `query=`, then split what is left at the first comma. -/

/-- Spec-side helper: remove the fixed leading text `lead` from `m`, if `m`
starts with it. -/
def specDropLeading : List Nat → List Nat → Option (List Nat)
  | [], m => some m
  | _ :: _, [] => none
  | a :: as, b :: bs => if a = b then specDropLeading as bs else none

/-- Spec-side helper: split at the first comma (byte 44). -/
def specSplitComma : List Nat → Option (List Nat × List Nat)
  | [] => none
  | b :: bs =>
    if b = 44 then some ([], bs)
    else (specSplitComma bs).map fun lr => (b :: lr.1, lr.2)

/-- Spec-side reading of a link: drop the template, split at the first comma. -/
def specParseLink (link : List Nat) : Option (List Nat × List Nat) := do
  let q ← specDropLeading mapsUrl link
  specSplitComma q

/-- The events of a run of `sendLocation` up to the point where it reads the
location text, the two calls of `rx2task` having obtained `p1` and `p2`. -/
def sendLocationEvents (env : Env) (p1 p2 : Option Nat) : List Event :=
  [.write (ascii "AT+CMGF=1\r\n"), .delay (1000 / env.tickMs)] ++
    getLocationEvents env p1 p2 ++ [.delay (10000 / env.tickMs)]

/-! ## Library lemmas -/

theorem bind_ok {α β : Type} {m : Proc α} {f : α → Proc β} {s s1 : State} {a : α}
    (h : m s = .ok a s1) : (m >>= f) s = f a s1 := by
  show Proc.bind m f s = f a s1
  simp only [Proc.bind, h]

theorem bind_undef {α β : Type} {m : Proc α} {f : α → Proc β} {s s1 : State} {w : Fault}
    (h : m s = .undef w s1) : (m >>= f) s = .undef w s1 := by
  show Proc.bind m f s = .undef w s1
  simp only [Proc.bind, h]

theorem pure_run {α : Type} (a : α) (s : State) : (pure a : Proc α) s = .ok a s := rfl

theorem strlen_cstring (t rest : List Nat) (h0 : 0 ∉ t) :
    strlen (t ++ 0 :: rest) = some t.length := by
  induction t with
  | nil => simp [strlen]
  | cons b bs ih =>
    have hb : b ≠ 0 := fun h => h0 (by simp [h])
    have hbs : 0 ∉ bs := fun h => h0 (by simp [h])
    simp [strlen, hb, ih hbs]

theorem sendData_lit (env : Env) (txt : String) (s : State) (h0 : 0 ∉ ascii txt) :
    sendData env (cstr txt) s =
      .ok (env.uartWrite s.trace (ascii txt))
        { s with trace := s.trace ++ [.write (ascii txt)] } := by
  have hl : strlen (cstr txt) = some (ascii txt).length := strlen_cstring (ascii txt) [] h0
  have hc : c_strlen (cstr txt) s = .ok (ascii txt).length s := by
    simp only [c_strlen, hl]
    rfl
  have ht : (cstr txt).take (ascii txt).length = ascii txt := by
    simp [cstr]
  simp only [sendData, bind_ok hc, uart_write_bytes, ht]
  simp [cstr]

theorem emit_run (e : Event) (s : State) :
    emit e s = .ok () { s with trace := s.trace ++ [e] } := rfl

theorem heap_get_set (l : List Block) (h : Nat) (b c : Block) (hb : l[h]? = some b) :
    (l.set h c)[h]? = some c := by
  have hlt : h < l.length := by
    rcases Nat.lt_or_ge h l.length with hlt | hge
    · exact hlt
    · rw [List.getElem?_eq_none hge] at hb
      cases hb
  simp [List.getElem?_set, hlt]

theorem free_live (s : State) (h : Nat) (b : Block) (hb : s.heap[h]? = some b)
    (hlive : b.released = false) :
    free (some h) s = .ok ()
      ⟨s.heap.set h { b with released := true }, s.locData, s.trace ++ [.free (some h)]⟩ := by
  simp only [free, hb, hlive]
  rfl

theorem rx2task_spec (env : Env) (s : State) :
    ∃ s', rx2task env s = .ok () s' ∧
      s'.trace = s.trace ++ [.malloc s'.locData (RX_BUF_SIZE + 1), .free s'.locData] ∧
      Dangling s' s'.locData := by
  have key : ∀ (p : Option Nat) (s1 : State),
      malloc env (RX_BUF_SIZE + 1) s = .ok p s1 →
      s1.trace = s.trace ++ [.malloc p (RX_BUF_SIZE + 1)] →
      (p = none ∨ ∃ h b, p = some h ∧ s1.heap[h]? = some b ∧ b.released = false) →
      ∃ s', rx2task env s = .ok () s' ∧
        s'.trace = s.trace ++ [.malloc s'.locData (RX_BUF_SIZE + 1), .free s'.locData] ∧
        Dangling s' s'.locData := by
    intro p s1 hm ht hp
    have hset : setLocData p s1 = .ok () ⟨s1.heap, p, s1.trace⟩ := rfl
    rcases hp with rfl | ⟨h, b, rfl, hb, hlive⟩
    · refine ⟨⟨s1.heap, none, s1.trace ++ [.free none]⟩, ?_, ?_, Or.inl rfl⟩
      · simp only [rx2task, bind_ok hm, bind_ok hset]
        rfl
      · simp [ht]
    · have hf := free_live ⟨s1.heap, some h, s1.trace⟩ h b hb hlive
      refine ⟨⟨s1.heap.set h { b with released := true }, some h,
        s1.trace ++ [.free (some h)]⟩, ?_, ?_, ?_⟩
      · simp only [rx2task, bind_ok hm, bind_ok hset]
        exact hf
      · simp [ht]
      · exact Or.inr ⟨h, { b with released := true }, rfl,
          heap_get_set _ _ _ _ hb, rfl⟩
  have hfresh : ∃ p s1, freshBlock env (RX_BUF_SIZE + 1) s = .ok p s1 ∧
      s1.trace = s.trace ++ [.malloc p (RX_BUF_SIZE + 1)] ∧
      (p = none ∨ ∃ h b, p = some h ∧ s1.heap[h]? = some b ∧ b.released = false) := by
    refine ⟨_, _, rfl, rfl, Or.inr ⟨s.heap.length,
      ⟨(List.range (RX_BUF_SIZE + 1)).map (env.uninit s.heap.length), false⟩, rfl, ?_, rfl⟩⟩
    exact List.getElem?_concat_length _ _
  cases halloc : env.alloc s.trace (RX_BUF_SIZE + 1) with
  | null =>
    refine key none ⟨s.heap, s.locData, s.trace ++ [.malloc none (RX_BUF_SIZE + 1)]⟩ ?_ rfl
      (Or.inl rfl)
    simp only [malloc, halloc]
  | fresh =>
    obtain ⟨p, s1, h1, h2, h3⟩ := hfresh
    refine key p s1 ?_ h2 h3
    simp only [malloc, halloc]
    exact h1
  | reuse h =>
    cases hb : s.heap[h]? with
    | none =>
      obtain ⟨p, s1, h1, h2, h3⟩ := hfresh
      refine key p s1 ?_ h2 h3
      simp only [malloc, halloc, hb]
      exact h1
    | some b =>
      by_cases hc : b.released = true ∧ RX_BUF_SIZE + 1 ≤ b.data.length
      · refine key (some h)
          ⟨s.heap.set h ⟨b.data.take (RX_BUF_SIZE + 1), false⟩, s.locData,
            s.trace ++ [.malloc (some h) (RX_BUF_SIZE + 1)]⟩ ?_ rfl
          (Or.inr ⟨h, _, rfl, heap_get_set _ _ _ _ hb, rfl⟩)
        simp only [malloc, halloc, hb, hc]
        rfl
      · obtain ⟨p, s1, h1, h2, h3⟩ := hfresh
        refine key p s1 ?_ h2 h3
        simp only [malloc, halloc, hb, hc]
        exact h1

theorem getLocation_spec (env : Env) (s : State) :
    ∃ s' p1, getLocation env s = .ok () s' ∧
      s'.trace = s.trace ++ getLocationEvents env p1 s'.locData ∧
      Dangling s' s'.locData := by
  have h1 : 0 ∉ ascii "AT+GPS=1\r\n" := by decide
  have h2 : 0 ∉ ascii "AT+GPSRD=1\r\n" := by decide
  have h3 : 0 ∉ ascii "AT+GPSRD=0\r\n" := by decide
  have h4 : 0 ∉ ascii "AT+LOCATION=2\r\n" := by decide
  have h5 : 0 ∉ ascii "AT+GPS=0\r\n" := by decide
  obtain ⟨s1, hr1, ht1, _⟩ := rx2task_spec env
    ⟨s.heap, s.locData, s.trace ++
      [.write (ascii "AT+GPS=1\r\n"), .delay (1000 / env.tickMs),
       .write (ascii "AT+GPSRD=1\r\n"), .delay (3000 / env.tickMs),
       .write (ascii "AT+GPSRD=0\r\n"), .delay (1000 / env.tickMs)]⟩
  obtain ⟨s2, hr2, ht2, hd2⟩ := rx2task_spec env
    ⟨s1.heap, s1.locData, s1.trace ++
      [.write (ascii "AT+LOCATION=2\r\n"), .delay (1000 / env.tickMs)]⟩
  refine ⟨⟨s2.heap, s2.locData, s2.trace ++ [.write (ascii "AT+GPS=0\r\n")]⟩, s1.locData,
    ?_, ?_, hd2⟩
  · have e1 : gpsSetup env s = .ok () ⟨s.heap, s.locData,
        s.trace ++ [.write (ascii "AT+GPS=1\r\n")]⟩ := by
      simp only [gpsSetup, bind_ok (sendData_lit env _ s h1)]
      rfl
    simp only [getLocation, bind_ok e1, vTaskDelay, bind_ok (emit_run _ _),
      bind_ok (sendData_lit env _ _ h2), bind_ok (sendData_lit env _ _ h3),
      List.append_assoc, List.cons_append, List.nil_append, bind_ok hr1,
      bind_ok (sendData_lit env _ _ h4), bind_ok hr2, gpsDisable,
      bind_ok (sendData_lit env _ _ h5)]
    rfl
  · simp [ht2, ht1, getLocationEvents]

theorem load_dangling (s : State) (p : Option Nat) (hd : Dangling s p) :
    ∃ w, load p s = .undef w s ∧
      ((w = .nullDeref ∧ p = none) ∨ ∃ h, w = .useAfterFree h ∧ p = some h) := by
  rcases hd with rfl | ⟨h, b, rfl, hb, hrel⟩
  · exact ⟨.nullDeref, rfl, Or.inl ⟨rfl, rfl⟩⟩
  · refine ⟨.useAfterFree h, ?_, Or.inr ⟨h, rfl, rfl⟩⟩
    simp only [load, hb, hrel]
    rfl

theorem mapsUrl_nonzero : 0 ∉ mapsUrl := by decide

theorem mapsUrl_length : mapsUrl.length = 48 := by decide

theorem c_strlen_googs (s : State) : c_strlen googs s = .ok 48 s := by
  have hl : strlen googs = some 48 := by
    have := strlen_cstring mapsUrl [] mapsUrl_nonzero
    rw [mapsUrl_length] at this
    exact this
  simp only [c_strlen, hl]
  rfl

theorem sendLocation_spec (env : Env) (s : State) :
    ∃ s' p1 w, sendLocation env s = .undef w s' ∧
      s'.trace = s.trace ++ sendLocationEvents env p1 s'.locData ∧
      Dangling s' s'.locData ∧
      ((w = .nullDeref ∧ s'.locData = none) ∨ ∃ h, w = .useAfterFree h ∧ s'.locData = some h) := by
  have h1 : 0 ∉ ascii "AT+CMGF=1\r\n" := by decide
  obtain ⟨s1, p1, hr1, ht1, hd1⟩ := getLocation_spec env
    ⟨s.heap, s.locData, s.trace ++
      [.write (ascii "AT+CMGF=1\r\n"), .delay (1000 / env.tickMs)]⟩
  have hd : Dangling ⟨s1.heap, s1.locData, s1.trace ++ [.delay (10000 / env.tickMs)]⟩
      s1.locData := hd1
  obtain ⟨w, hload, hw⟩ := load_dangling _ _ hd
  refine ⟨⟨s1.heap, s1.locData, s1.trace ++ [.delay (10000 / env.tickMs)]⟩, p1, w,
    ?_, ?_, hd1, hw⟩
  · have e1 : smsSetup env s = .ok () ⟨s.heap, s.locData,
        s.trace ++ [.write (ascii "AT+CMGF=1\r\n")]⟩ := by
      simp only [smsSetup, bind_ok (sendData_lit env _ s h1)]
      rfl
    have e2 : getLocData ⟨s1.heap, s1.locData, s1.trace ++ [.delay (10000 / env.tickMs)]⟩
        = .ok s1.locData ⟨s1.heap, s1.locData, s1.trace ++ [.delay (10000 / env.tickMs)]⟩ :=
      rfl
    simp only [sendLocation, bind_ok e1, vTaskDelay, bind_ok (emit_run _ _),
      List.append_assoc, List.cons_append, List.nil_append, bind_ok hr1, bind_ok e2,
      bind_ok (c_strlen_googs _), bind_undef hload]
  · simp [ht1, sendLocationEvents]

theorem writes_append (a b : List Event) : writes (a ++ b) = writes a ++ writes b := by
  induction a with
  | nil => rfl
  | cons e es ih => cases e <;> simp [writes, ih]

theorem printed_append (a b : List Event) : printed (a ++ b) = printed a ++ printed b := by
  induction a with
  | nil => rfl
  | cons e es ih => cases e <;> simp [printed, ih]

theorem writes_getLocationEvents (env : Env) (p1 p2 : Option Nat) :
    writes (getLocationEvents env p1 p2) =
      [ascii "AT+GPS=1\r\n", ascii "AT+GPSRD=1\r\n", ascii "AT+GPSRD=0\r\n",
       ascii "AT+LOCATION=2\r\n", ascii "AT+GPS=0\r\n"] := by
  simp [getLocationEvents, writes]

theorem writes_sendLocationEvents (env : Env) (p1 p2 : Option Nat) :
    writes (sendLocationEvents env p1 p2) =
      [ascii "AT+CMGF=1\r\n", ascii "AT+GPS=1\r\n", ascii "AT+GPSRD=1\r\n",
       ascii "AT+GPSRD=0\r\n", ascii "AT+LOCATION=2\r\n", ascii "AT+GPS=0\r\n"] := by
  simp [sendLocationEvents, getLocationEvents, writes]

theorem printed_sendLocationEvents (env : Env) (p1 p2 : Option Nat) :
    printed (sendLocationEvents env p1 p2) = [] := by
  simp [sendLocationEvents, getLocationEvents, printed]

theorem internetSetup_run (env : Env) (s : State) :
    internetSetup env s = .ok ()
      ⟨s.heap, s.locData,
        s.trace ++
          [.write (ascii "AT+CGATT=1\r\n"), .delay (2000 / env.tickMs),
           .write (ascii "AT+CGDCONT=1,\"IP\",\"hologram\"\r\n"), .delay (2000 / env.tickMs),
           .write (ascii "AT+CGACT=1,1\r\n"), .delay (1000 / env.tickMs)]⟩ := by
  have h1 : 0 ∉ ascii "AT+CGATT=1\r\n" := by decide
  have h2 : 0 ∉ ascii "AT+CGDCONT=1,\"IP\",\"hologram\"\r\n" := by decide
  have h3 : 0 ∉ ascii "AT+CGACT=1,1\r\n" := by decide
  simp only [internetSetup, bind_ok (sendData_lit env _ _ h1), vTaskDelay,
    bind_ok (emit_run _ _), bind_ok (sendData_lit env _ _ h2),
    bind_ok (sendData_lit env _ _ h3), List.append_assoc, List.cons_append, List.nil_append,
    emit_run]

theorem ms_of_ticks (p k : Nat) (hp : p ∣ 1000) : k * 1000 / p * p = k * 1000 :=
  Nat.div_mul_cancel (Dvd.dvd.mul_left hp k)

theorem specDropLeading_append (lead x : List Nat) :
    specDropLeading lead (lead ++ x) = some x := by
  induction lead with
  | nil => cases x <;> rfl
  | cons a as ih => simp [specDropLeading, ih]

theorem specSplitComma_join (lat lon : List Nat) (hc : 44 ∉ lat) :
    specSplitComma (lat ++ 44 :: lon) = some (lat, lon) := by
  induction lat with
  | nil => simp [specSplitComma]
  | cons b bs ih =>
    have hb : b ≠ 44 := fun h => hc (by simp [h])
    have hbs : 44 ∉ bs := fun h => hc (by simp [h])
    simp [specSplitComma, hb, ih hbs]

theorem specParseLink_template (lat lon : List Nat) (hc : 44 ∉ lat) :
    specParseLink (mapsUrl ++ (lat ++ 44 :: lon)) = some (lat, lon) := by
  simp only [specParseLink, specDropLeading_append, Option.bind_eq_bind, Option.some_bind]
  exact specSplitComma_join lat lon hc

theorem take_cstring (t rest : List Nat) :
    (t ++ 0 :: rest).take (t.length + 1) = t ++ [0] := by
  have : t ++ 0 :: rest = (t ++ [0]) ++ rest := by simp
  rw [this]
  exact List.take_left' (by simp)

theorem strcpy_cstring (dst u rest : List Nat) (h0 : 0 ∉ u)
    (hfit : u.length + 1 ≤ dst.length) :
    strcpy dst (u ++ 0 :: rest) = some (u ++ 0 :: dst.drop (u.length + 1)) := by
  simp [strcpy, strlen_cstring u rest h0, take_cstring, store, hfit]

theorem strcat_cstring (u junk t rest : List Nat) (hu : 0 ∉ u) (ht : 0 ∉ t)
    (hfit : t.length ≤ junk.length) :
    strcat (u ++ 0 :: junk) (t ++ 0 :: rest) = some (u ++ t ++ 0 :: junk.drop t.length) := by
  have hlen : u.length + (t.length + 1) ≤ u.length + (junk.length + 1) := by omega
  have hd : List.drop (u.length + (t.length + 1)) (u ++ 0 :: junk) = junk.drop t.length := by
    rw [List.drop_append]
    simp
  simp [strcat, strlen_cstring u junk hu, strlen_cstring t rest ht, take_cstring, store, hlen, hd]

/-- On a buffer of its own, of the size `sendLocation` asks for, `strcpy` of
`googs` followed by `strcat` of a C string `t` leaves the template followed by
`t` and the closing `0`. -/
theorem link_fill (buf t rest : List Nat) (h0 : 0 ∉ t)
    (hlen : buf.length = 1 + 48 + t.length) :
    (strcpy buf googs).bind (fun b => strcat b (t ++ 0 :: rest))
      = some (mapsUrl ++ t ++ [0]) := by
  have hg : googs = mapsUrl ++ 0 :: [] := by simp [googs, mapsUrl, cstr]
  have hcpy := strcpy_cstring buf mapsUrl [] mapsUrl_nonzero
    (by rw [mapsUrl_length]; omega)
  rw [mapsUrl_length] at hcpy
  rw [hg, hcpy, Option.some_bind,
    strcat_cstring mapsUrl (buf.drop 49) t rest mapsUrl_nonzero h0 (by simp; omega)]
  have : (buf.drop 49).drop t.length = [] := by
    apply List.drop_eq_nil_of_le
    simp
    omega
  rw [this]

/-- When the buffer and the string appended are the same storage, as when
`malloc` hands the freed block back for `hyperlink`, `strcat` runs past the 49
bytes asked for an empty text. -/
theorem link_fill_aliased_overruns :
    (strcpy (List.replicate 49 0) googs).bind (fun b => strcat b b) = none := by
  decide

theorem steps_getLocationEvents (env : Env) (p1 p2 : Option Nat) (hp : env.tickMs ∣ 1000) :
    steps env.tickMs (getLocationEvents env p1 p2) =
      [.send (ascii "AT+GPS=1\r\n"), .wait 1000,
       .send (ascii "AT+GPSRD=1\r\n"), .wait 3000,
       .send (ascii "AT+GPSRD=0\r\n"), .wait 1000,
       .send (ascii "AT+LOCATION=2\r\n"), .wait 1000,
       .send (ascii "AT+GPS=0\r\n")] := by
  have h1 := ms_of_ticks env.tickMs 1 hp
  have h3 := ms_of_ticks env.tickMs 3 hp
  simp only [Nat.one_mul, Nat.reduceMul] at h1 h3
  simp only [getLocationEvents, steps, h1, h3]

/-! ## The claims -/

/-- C1 fails in the code: no run of `sendLocation` builds the link from a
location text.  Every run stops, before anything is put out, at the read of
the text through `locData`, which is then the null pointer or points to the
block `rx2task` has freed. -/
theorem sendLocation_never_builds_link (env : Env) (s : State) :
    ∃ w s', sendLocation env s = .undef w s' ∧
      (w = .nullDeref ∨ ∃ h, w = .useAfterFree h) ∧
      printed s'.trace = printed s.trace := by
  obtain ⟨s', p1, w, hrun, htr, _, hw⟩ := sendLocation_spec env s
  refine ⟨w, s', hrun, ?_, ?_⟩
  · rcases hw with ⟨hw, _⟩ | ⟨h, hw, _⟩
    · exact Or.inl hw
    · exact Or.inr ⟨h, hw⟩
  · rw [htr, printed_append, printed_sendLocationEvents, List.append_nil]

/-- C2 fails in the code: in every run of `sendLocation` the UART writes are
the six commands listed, after which the run stops at the read of the location
text; they do not contain, in order, an `AT+CMGS="<number>"` envelope, a body,
the byte `0x1A` and `AT+CMGF=0`, for any number and any body. -/
theorem sendLocation_sends_no_sms (env : Env) (s : State) :
    ∃ w s' new, sendLocation env s = .undef w s' ∧ s'.trace = s.trace ++ new ∧
      writes new =
        [ascii "AT+CMGF=1\r\n", ascii "AT+GPS=1\r\n", ascii "AT+GPSRD=1\r\n",
         ascii "AT+GPSRD=0\r\n", ascii "AT+LOCATION=2\r\n", ascii "AT+GPS=0\r\n"] ∧
      ¬ ∃ number body, List.Sublist
          [ascii "AT+CMGS=\"" ++ number ++ ascii "\"\r\n", body, [0x1A], ascii "AT+CMGF=0\r\n"]
          (writes new) := by
  obtain ⟨s', p1, w, hrun, htr, _, _⟩ := sendLocation_spec env s
  refine ⟨w, s', _, hrun, htr, writes_sendLocationEvents env p1 s'.locData, ?_⟩
  rintro ⟨number, body, hsub⟩
  have hmem : [0x1A] ∈ writes (sendLocationEvents env p1 s'.locData) :=
    hsub.subset (by simp)
  rw [writes_sendLocationEvents] at hmem
  revert hmem
  decide

/-- C3 fails in the code: every run of `getLocation` completes and adds exactly
the thirteen events listed, none of which is a UART read: between `AT+GPSRD=0`
and `AT+GPS=0` each of the two calls of `rx2task` only calls `malloc` and
`free`.  When the tick period divides 1000 ms the transport sees send
`AT+GPS=1`, wait 1000 ms, send `AT+GPSRD=1`, wait 3000 ms, send `AT+GPSRD=0`,
wait 1000 ms, send `AT+LOCATION=2`, wait 1000 ms, send `AT+GPS=0`; this is so
on the ESP32 environment (10 ms tick). -/
theorem getLocation_issues_no_read :
    (∀ (env : Env) (s : State), ∃ s' p1 p2 new,
      getLocation env s = .ok () s' ∧ s'.trace = s.trace ++ new ∧
      new =
        [.write (ascii "AT+GPS=1\r\n"), .delay (1000 / env.tickMs),
         .write (ascii "AT+GPSRD=1\r\n"), .delay (3000 / env.tickMs),
         .write (ascii "AT+GPSRD=0\r\n"), .delay (1000 / env.tickMs),
         .malloc p1 (RX_BUF_SIZE + 1), .free p1,
         .write (ascii "AT+LOCATION=2\r\n"), .delay (1000 / env.tickMs),
         .malloc p2 (RX_BUF_SIZE + 1), .free p2,
         .write (ascii "AT+GPS=0\r\n")] ∧
      ∀ n k, Event.read n k ∉ new) ∧
    ∃ s', getLocation esp32 State.init = .ok () s' ∧
      steps 10 s'.trace =
        [.send (ascii "AT+GPS=1\r\n"), .wait 1000,
         .send (ascii "AT+GPSRD=1\r\n"), .wait 3000,
         .send (ascii "AT+GPSRD=0\r\n"), .wait 1000,
         .send (ascii "AT+LOCATION=2\r\n"), .wait 1000,
         .send (ascii "AT+GPS=0\r\n")] := by
  constructor
  · intro env s
    obtain ⟨s', p1, hrun, htr, _⟩ := getLocation_spec env s
    refine ⟨s', p1, s'.locData, _, hrun, htr, rfl, ?_⟩
    intro n k
    simp [getLocationEvents]
  · obtain ⟨s', p1, hrun, htr, _⟩ := getLocation_spec esp32 State.init
    refine ⟨s', hrun, ?_⟩
    rw [htr]
    exact steps_getLocationEvents esp32 p1 s'.locData (by decide)

/-- C4 fails in the code: `sendHex` asks the UART for `sizeof(const char*)`
bytes whatever the array is.  On the ESP32 (4-byte pointers), called on the
one-byte array `{0x1A}` followed in memory by `0xAA 0xBB 0xCC`, it hands over
four bytes, `0x1A` and the three bytes behind the array; and the request never
fits inside the one-byte array alone. -/
theorem sendHex_requests_pointer_size :
    (∀ (env : Env) (data : List Nat) (s : State),
      sendHex env data s =
        if env.ptrBytes ≤ data.length then
          .ok (env.uartWrite s.trace (data.take env.ptrBytes))
            ⟨s.heap, s.locData, s.trace ++ [.write (data.take env.ptrBytes)]⟩
        else .undef .overRead s) ∧
    sendHex esp32 [0x1A, 0xAA, 0xBB, 0xCC] State.init =
      .ok 4 ⟨[], none, [.write [0x1A, 0xAA, 0xBB, 0xCC]]⟩ ∧
    sendHex esp32 [0x1A] State.init = .undef .overRead State.init := by
  refine ⟨?_, by decide, by decide⟩
  intro env data s
  rfl

/-- C6 fails in the code: whatever `uart_write_bytes` returns and whatever the
allocator does, `getLocation` completes with `AT+GPS=0` after `AT+GPS=1` as its
last command; but `sendLocation` stops at the read of the location text, after
`AT+CMGF=1` and before `smsDisable`, so `AT+CMGF=0` is not among its writes. -/
theorem sendLocation_stops_before_smsDisable (env : Env) (s : State) :
    (∃ s' new, getLocation env s = .ok () s' ∧ s'.trace = s.trace ++ new ∧
      List.Sublist [ascii "AT+GPS=1\r\n", ascii "AT+GPS=0\r\n"] (writes new) ∧
      (writes new).getLast? = some (ascii "AT+GPS=0\r\n")) ∧
    ∃ w s' new, sendLocation env s = .undef w s' ∧ s'.trace = s.trace ++ new ∧
      List.Sublist [ascii "AT+GPS=1\r\n", ascii "AT+GPS=0\r\n"] (writes new) ∧
      ascii "AT+CMGF=1\r\n" ∈ writes new ∧
      ascii "AT+CMGF=0\r\n" ∉ writes new := by
  constructor
  · obtain ⟨s', p1, hrun, htr, _⟩ := getLocation_spec env s
    refine ⟨s', _, hrun, htr, ?_, ?_⟩
    · rw [writes_getLocationEvents]
      decide
    · rw [writes_getLocationEvents]
      rfl
  · obtain ⟨s', p1, w, hrun, htr, _, _⟩ := sendLocation_spec env s
    refine ⟨w, s', _, hrun, htr, ?_, ?_, ?_⟩
    · rw [writes_sendLocationEvents]
      decide
    · rw [writes_sendLocationEvents]
      decide
    · rw [writes_sendLocationEvents]
      decide

set_option maxRecDepth 20000 in
/-- C7 fails in the code: whenever `rx2task` returns, `locData` is the null
pointer or points to a released block (the one it has just freed), never to a
live buffer; and every run of `sendLocation` reads through it in that state.
On the ESP32 environment the read hits the released block 1; with an allocator
that hands storage back, the released block 0; out of memory, the null
pointer. -/
theorem rx2task_leaves_locData_dangling :
    (∀ (env : Env) (s : State), ∃ s', rx2task env s = .ok () s' ∧
      (s'.locData = none ∨
        ∃ h b, s'.locData = some h ∧ s'.heap[h]? = some b ∧ b.released = true)) ∧
    (∀ (env : Env) (s : State), ∃ w s', sendLocation env s = .undef w s' ∧
      ((w = .nullDeref ∧ s'.locData = none) ∨
        ∃ h b, w = .useAfterFree h ∧ s'.locData = some h ∧
          s'.heap[h]? = some b ∧ b.released = true)) ∧
    (app_main esp32).fault = some (.useAfterFree 1) ∧
    (app_main esp32Reusing).fault = some (.useAfterFree 0) ∧
    (app_main esp32NoMemory).fault = some .nullDeref := by
  refine ⟨?_, ?_, by decide, by decide, by decide⟩
  · intro env s
    obtain ⟨s', hrun, _, hd⟩ := rx2task_spec env s
    exact ⟨s', hrun, hd⟩
  · intro env s
    obtain ⟨s', p1, w, hrun, _, hd, hw⟩ := sendLocation_spec env s
    refine ⟨w, s', hrun, ?_⟩
    rcases hw with ⟨hw, hp⟩ | ⟨h, hw, hp⟩
    · exact Or.inl ⟨hw, hp⟩
    · rcases hd with hd | ⟨h', b, hp', hb, hrel⟩
      · rw [hp] at hd
        cases hd
      · rw [hp] at hp'
        cases hp'
        exact Or.inr ⟨h, b, hw, hp, hb, hrel⟩

/-- C8: every run of `internetSetup` completes and writes exactly three
commands, `AT+CGATT=1`, then `AT+CGDCONT=1,"IP","hologram"` with the APN whole
between double quotes, then `AT+CGACT=1,1`, each closed by CR LF; seen from
the transport (tick period dividing 1000 ms) each is followed by its wait:
2000 ms, 2000 ms, 1000 ms. -/
theorem internetSetup_commands (env : Env) (s : State) (hp : env.tickMs ∣ 1000) :
    ∃ s' new, internetSetup env s = .ok () s' ∧ s'.trace = s.trace ++ new ∧
      writes new =
        [ascii "AT+CGATT=1\r\n",
         ascii "AT+CGDCONT=1,\"IP\",\"" ++ ascii "hologram" ++ ascii "\"\r\n",
         ascii "AT+CGACT=1,1\r\n"] ∧
      steps env.tickMs new =
        [.send (ascii "AT+CGATT=1\r\n"), .wait 2000,
         .send (ascii "AT+CGDCONT=1,\"IP\",\"" ++ ascii "hologram" ++ ascii "\"\r\n"),
         .wait 2000,
         .send (ascii "AT+CGACT=1,1\r\n"), .wait 1000] := by
  refine ⟨_, _, internetSetup_run env s, rfl, ?_, ?_⟩
  · simp only [writes]
    rfl
  · have h1 := ms_of_ticks env.tickMs 1 hp
    have h2 := ms_of_ticks env.tickMs 2 hp
    simp only [Nat.one_mul, Nat.reduceMul] at h1 h2
    simp only [steps, h1, h2]
    rfl

/-- C8 on the ESP32 environment (10 ms tick) from the initial state. -/
theorem internetSetup_commands_witness :
    ∃ s', internetSetup esp32 State.init = .ok () s' ∧
      steps 10 s'.trace =
        [.send (ascii "AT+CGATT=1\r\n"), .wait 2000,
         .send (ascii "AT+CGDCONT=1,\"IP\",\"hologram\"\r\n"), .wait 2000,
         .send (ascii "AT+CGACT=1,1\r\n"), .wait 1000] := by
  obtain ⟨s', new, hrun, htr, _, hst⟩ :=
    internetSetup_commands esp32 State.init (by decide)
  refine ⟨s', hrun, ?_⟩
  rw [htr]
  exact hst

end A9G
